import Mathlib

/-!
Verification development for the mkv-combine repository
(src/mkv-combine/{mkv.py, main.py}).

The Python source is shallowly embedded as pure Lean functions:

* file-system paths are abstract strings (`Path := String`);
* the external collaborators — `pathlib` resolution, `Path.is_file` /
  `Path.is_dir`, the `mkvmerge -J` introspection subprocess, and the
  `iso639` language-code library — are gathered into an `Env` record of
  pure functions.  `mkvmerge` is assumed installed (`verify_mkvmerge`
  passes) and to produce parseable JSON for every existing file, as the
  spec treats the external tool as correct;
* Python exceptions become the `Err` inductive and fallible code returns
  `Except Err _`;
* object construction (`MKVTrack.__init__`, `MKVFile.__init__`) becomes
  functions producing records of the observable attributes, replaying the
  constructor's statements in order;
* the mutable single-slot probe cache of `MKV.info_json` becomes explicit
  state passing over a `ProbeCache` record.
-/

namespace MkvCombine

/-- File-system paths, abstracted as plain strings. -/
abbrev Path := String

/-- The `properties` object of one entry of `mkvmerge -J`'s `tracks` list
(`none` models an absent key). -/
structure TrackProperties where
  track_name : Option String
  language : Option String
  default_track : Option Bool
  forced_track : Option Bool
deriving DecidableEq, Repr, Inhabited

/-- One entry of the `tracks` list in the parsed `mkvmerge -J` output. -/
structure ProbeTrack where
  id : Nat
  type : String
  codec : String
  properties : TrackProperties
deriving DecidableEq, Repr, Inhabited

/-- The parsed `mkvmerge -J` output: `container.supported` plus the
`tracks` list. -/
structure InfoJson where
  supported : Bool
  tracks : List ProbeTrack
deriving DecidableEq, Repr, Inhabited

/-- Python exceptions raised by the embedded code.  Several map to the same
Python exception class but carry distinct messages; they are kept as
distinct constructors. -/
inductive Err where
  /-- `FileNotFoundError` from `MKV.info_json` (path is not a file). -/
  | fileNotFound
  /-- `FileNotSupportedError` from `MKV.verify_supported`. -/
  | fileNotSupported
  /-- `ValueError("not an ISO639-2 language code")` from the `language` setter. -/
  | valueError
  /-- `IndexError` from the `track_id` setter / `set_defaults_from_info_json`. -/
  | indexError
  /-- `TypeError` from the `file_path` getter when no path is stored. -/
  | typeError
  /-- `ValueError` from `MKVFile.command` (output suffix is not `.mkv`). -/
  | invalidOutputSuffix
  /-- `FileNotFoundError("Found nothing in Subs directory ...")`. -/
  | emptyDirectory
  /-- `FileNotFoundError("Found no possible subtitles files ...")`. -/
  | noSubtitles
  /-- `FileNotFoundError("Found no possible video files ...")`. -/
  | noVideo
  /-- `ValueError("Found multiple possible video files ...")`. -/
  | ambiguousVideo
  /-- `NotImplementedError("Currently does not support mix of dirs and files")`. -/
  | unsupportedLayout
deriving DecidableEq, Repr

/-- The external world as seen by the embedded code: path resolution
(`format_path` = `Path(...).expanduser().resolve()`), file-system tests,
the `mkvmerge -J` probe, and the `iso639` ISO 639-2 membership test
(`is_ISO639_2`).  `resolve_idem` records that resolving an
already-resolved path is the identity, which `pathlib` guarantees. -/
structure Env where
  resolve : Path → Path
  resolve_idem : ∀ p, resolve (resolve p) = resolve p
  isFile : Path → Bool
  isDir : Path → Bool
  probe : Path → InfoJson
  iso : String → Bool

/-- The observable attributes of a constructed `MKVTrack` object
(mkv.py, class `MKVTrack`). -/
structure MKVTrack where
  file_path : Path
  track_id : Nat
  track_codec : String
  track_type : String
  track_name : Option String
  language : Option String
  tags : Option Path
  default_track : Bool
  forced_track : Bool
  no_chapters : Bool
  no_global_tags : Bool
  no_track_tags : Bool
  no_attachments : Bool
deriving DecidableEq, Repr

/-- The `language` property setter of `MKVTrack` (mkv.py lines 237-242):
accept `None` or a string passing `is_ISO639_2`, otherwise raise
`ValueError`. -/
def language_setter (env : Env) (language : Option String) : Except Err (Option String) :=
  match language with
  | none => .ok none
  | some s => if env.iso s then .ok (some s) else .error .valueError

/-- `MKVTrack.__init__` (mkv.py lines 152-187), replayed in source order:

1. `MKV.__init__`: the `file_path` setter resolves the path
   (`format_path`) and calls `verify_supported`, whose `info_json` call
   resolves again, checks `is_file` (`FileNotFoundError`), probes, and
   checks `container.supported` (`FileNotSupportedError`).  The fresh
   object's probe cache now holds the result, so every later
   `info_json()` call in the constructor is a cache hit returning `ij`.
2. the `track_id` setter: requires `0 ≤ track_id < len(tracks)`
   (`IndexError`), and stores `codec` and `type` of the track at
   *positional* index `track_id`.
3. `set_defaults_from_info_json`: `track_from_track_id` searches the
   track list for an entry whose `id` *field* equals `track_id`
   (`IndexError` if absent); then the probe's per-track `track_name`,
   `language`, `default_track`, `forced_track` are assigned when present
   — the `language` assignment goes through the validating setter and can
   raise `ValueError`.
4. the constructor then *unconditionally overwrites* those four
   attributes with its own arguments (`# overwrite tracks`), so the
   values assigned in step 3 never survive, and only the `language`
   validation of step 3 is observable.
5. the four exclusion flags are initialised to `False`. -/
def mkMKVTrack (env : Env) (file_path : Path) (track_id : Nat) (track_name : Option String)
    (language : Option String) (default_track : Bool) (forced_track : Bool) :
    Except Err MKVTrack :=
  let fp := env.resolve file_path
  let key := env.resolve fp
  if ¬ env.isFile key then .error .fileNotFound
  else
    let ij := env.probe key
    if ¬ ij.supported then .error .fileNotSupported
    else if h : track_id < ij.tracks.length then
      let codec := (ij.tracks.get ⟨track_id, h⟩).codec
      let ttype := (ij.tracks.get ⟨track_id, h⟩).type
      match ij.tracks.find? (fun tr => tr.id == track_id) with
      | none => .error .indexError
      | some tr =>
        -- step 3: transient default assignments; only the language
        -- validation can be observed (the values are overwritten in step 4)
        match language_setter env tr.properties.language with
        | .error e => .error e
        | .ok _ =>
          -- step 4: overwrite with the constructor arguments
          match language_setter env language with
          | .error e => .error e
          | .ok lang =>
            .ok { file_path := fp, track_id := track_id, track_codec := codec,
                  track_type := ttype, track_name := track_name, language := lang,
                  tags := none, default_track := default_track,
                  forced_track := forced_track, no_chapters := false,
                  no_global_tags := false, no_track_tags := false,
                  no_attachments := false }
    else .error .indexError

/-- Assigning to `language` on an existing `MKVTrack` (the property setter,
mkv.py lines 237-242).  On rejection the object is returned unmodified by
the `Except` error. -/
def set_language (env : Env) (t : MKVTrack) (language : Option String) :
    Except Err MKVTrack :=
  match language_setter env language with
  | .error e => .error e
  | .ok v => .ok { t with language := v }

/-- The observable attributes of a constructed `MKVFile` object
(mkv.py, class `MKVFile`). -/
structure MKVFile where
  mkvmerge_path : Path
  file_path : Path
  title : Option String
  tracks : List MKVTrack
deriving DecidableEq, Repr

/-- The default `mkvmerge` binary location (`default_mkv_path`,
mkv.py line 11), abstracted as a constant path string. -/
def default_mkv_path : Path := "resources/mkvmerge.exe"

/-- The track-construction loop of `MKVFile.__init__` (mkv.py lines
274-276): for each probe entry, in order, construct
`MKVTrack(file_path, track_id=entry["id"])` with all other arguments at
their defaults; the first raised exception propagates. -/
def mk_tracks (env : Env) (fp : Path) : List ProbeTrack → Except Err (List MKVTrack)
  | [] => .ok []
  | tr :: rest =>
    match mkMKVTrack env fp tr.id none none false false with
    | .error e => .error e
    | .ok t =>
      match mk_tracks env fp rest with
      | .error e => .error e
      | .ok ts => .ok (t :: ts)

/-- `MKVFile.__init__` (mkv.py lines 264-276): the `file_path` setter
resolves the path and runs `verify_supported` (is-file check, probe,
supported check); `title` is stored; the cached probe result is re-read
and one `MKVTrack` is appended per probe entry.  `mkvmerge_path` is
materialised to the default by the getter during the first `info_json`
call (`verify_mkvmerge`). -/
def mkMKVFile (env : Env) (file_path : Path) (title : Option String) :
    Except Err MKVFile :=
  let fp := env.resolve file_path
  let key := env.resolve fp
  if ¬ env.isFile key then .error .fileNotFound
  else
    let ij := env.probe key
    if ¬ ij.supported then .error .fileNotSupported
    else
      match mk_tracks env fp ij.tracks with
      | .error e => .error e
      | .ok tracks =>
        .ok { mkvmerge_path := default_mkv_path, file_path := fp,
              title := title, tracks := tracks }

/-- `MKVFile.contains_video` (mkv.py lines 278-282). -/
def contains_video (f : MKVFile) : Bool :=
  f.tracks.any (fun t => t.track_type == "video")

/-- `MKVFile.contains_subtitles` (mkv.py lines 284-288). -/
def contains_subtitles (f : MKVFile) : Bool :=
  f.tracks.any (fun t => t.track_type == "subtitles")

/-- `MKVFile.add_track` (mkv.py lines 357-363), `str|Path` branch:
construct `MKVTrack(track)` — every other argument at its default, in
particular `track_id=0` — and append it. -/
def add_track_path (env : Env) (f : MKVFile) (track : Path) : Except Err MKVFile :=
  match mkMKVTrack env track 0 none none false false with
  | .error e => .error e
  | .ok t => .ok { f with tracks := f.tracks ++ [t] }

/-- `MKVFile.add_track` (mkv.py lines 357-363), `MKVTrack` branch: append
the given track unchanged. -/
def add_track_track (f : MKVFile) (t : MKVTrack) : MKVFile :=
  { f with tracks := f.tracks ++ [t] }

/-- `MKVFile.add_file` (mkv.py lines 365-371), `MKVFile` branch. -/
def add_file (f : MKVFile) (other : MKVFile) : MKVFile :=
  { f with tracks := f.tracks ++ other.tracks }

/-- The final component of a path (the characters after the last `/`). -/
def lastComponent (cs : List Char) : List Char :=
  (cs.reverse.takeWhile (fun c => !(c == '/'))).reverse

/-- `pathlib.PurePath.suffix`: the file extension of the final path
component — the part from the last dot, empty when the name has no dot,
starts with its only dot, or ends with the dot. -/
def pathSuffix (p : Path) : String :=
  let cs := lastComponent (p : String).toList
  let revTail := cs.reverse.takeWhile (fun c => !(c == '.'))
  if cs.any (fun c => c == '.') then
    let i := cs.length - 1 - revTail.length
    if 0 < i ∧ i < cs.length - 1 then String.mk ('.' :: revTail.reverse) else ""
  else ""

/-- The per-track `--track-name` / `--language` / `--tags` override
options of `MKVFile.command` (mkv.py lines 299-306), each emitted only
when set. -/
def track_override_args (t : MKVTrack) : List String :=
  (match t.track_name with
   | none => []
   | some n => ["--track-name", toString t.track_id ++ ":" ++ n]) ++
  (match t.language with
   | none => []
   | some l => ["--language", toString t.track_id ++ ":" ++ l]) ++
  (match t.tags with
   | none => []
   | some pa => ["--tags", toString t.track_id ++ ":" ++ (pa : String)])

/-- The per-track `--default-track` / `--forced-track` options of
`MKVFile.command` (mkv.py lines 308-316), emitted unconditionally with
value `1` or `0`. -/
def track_flag_args (t : MKVTrack) : List String :=
  ["--default-track",
   toString t.track_id ++ ":" ++ (if t.default_track then "1" else "0"),
   "--forced-track",
   toString t.track_id ++ ":" ++ (if t.forced_track then "1" else "0")]

/-- The per-track stream-category selection of `MKVFile.command`
(mkv.py lines 318-330, `# remove extra tracks`): for each of the three
categories, include the track id (`-d`/`-a`/`-s`) when the track's type
matches, otherwise exclude the whole category (`-D`/`-A`/`-S`). -/
def track_stream_args (t : MKVTrack) : List String :=
  (if t.track_type ≠ "video" then ["-D"] else ["-d", toString t.track_id]) ++
  (if t.track_type ≠ "audio" then ["-A"] else ["-a", toString t.track_id]) ++
  (if t.track_type ≠ "subtitles" then ["-S"] else ["-s", toString t.track_id])

/-- The per-track exclusion options of `MKVFile.command`
(mkv.py lines 332-340). -/
def track_exclusion_args (t : MKVTrack) : List String :=
  (if t.no_chapters then ["--no-chapters"] else []) ++
  (if t.no_global_tags then ["--no-global-tags"] else []) ++
  (if t.no_track_tags then ["--no-track-tags"] else []) ++
  (if t.no_attachments then ["--no-attachments"] else [])

/-- One track's whole option group in `MKVFile.command` (mkv.py lines
298-343), closed by the track's source-file path. -/
def track_args (t : MKVTrack) : List String :=
  track_override_args t ++ track_flag_args t ++ track_stream_args t ++
  track_exclusion_args t ++ [(t.file_path : String)]

/-- `MKVFile.command` (mkv.py lines 290-346): resolve the output path,
reject a suffix other than `.mkv` (`ValueError`), then emit the global
prefix (`mkvmerge` path, `-o <output>`, `--title` if set) followed by
each track's option group in `tracks` order.  The method only reads the
model (the one attribute write it can perform — materialising the default
`mkvmerge` path in the getter — already happened during construction), so
it is modeled as returning the resulting `MKVFile` state next to the
argument list. -/
def command (f : MKVFile) (env : Env) (output_path : Path) :
    Except Err (MKVFile × List String) :=
  let out := env.resolve output_path
  if pathSuffix out ≠ ".mkv" then .error .invalidOutputSuffix
  else
    .ok (f, [(f.mkvmerge_path : String), "-o", (out : String)] ++
      (match f.title with
       | none => []
       | some ti => ["--title", ti]) ++
      (f.tracks.map track_args).flatten)

/-- The single-slot probe cache of an `MKV` object: the private attributes
`_info_json_hash` (the resolved path last probed) and `_info_json` (the
parsed result), both `None` on a fresh object. -/
structure ProbeCache where
  info_json_hash : Option Path
  info_json_cache : Option InfoJson
deriving DecidableEq, Repr

/-- The cache-miss body of `MKV.info_json` (mkv.py lines 124-142): check
`is_file` (`FileNotFoundError`), run `verify_mkvmerge` (assumed to pass),
invoke `mkvmerge -J`, store hash and result.  The third component records
that the subprocess was invoked. -/
def info_json_miss (env : Env) (f : Path) : Except Err (ProbeCache × InfoJson × Bool) :=
  if ¬ env.isFile f then .error .fileNotFound
  else .ok (⟨some f, some (env.probe f)⟩, env.probe f, true)

/-- `MKV.info_json` (mkv.py lines 113-142) with an explicit path argument
(`file_path=None` uses the object's stored path instead; the cache logic
is identical).  The argument is resolved (`format_path`); if `_info_json`
is set and the resolved path equals `_info_json_hash`, the cached result
is returned without invoking the subprocess (third component `false`);
otherwise the miss body runs. -/
def info_json (env : Env) (st : ProbeCache) (file_path : Path) :
    Except Err (ProbeCache × InfoJson × Bool) :=
  match st.info_json_cache, st.info_json_hash with
  | some j, some h =>
    if env.resolve file_path = h then .ok (st, j, false)
    else info_json_miss env (env.resolve file_path)
  | _, _ => info_json_miss env (env.resolve file_path)

/-- The directory neighbourhood of one subtitle-bearing directory `P`, as
seen by `match_subs_to_file` (main.py lines 73-101): `entries` is
`P.glob("*")`, `parentEntries` is `P.parent.glob("*")`, `childEntries S`
is `S.glob("*")` for a subdirectory `S`, `parentGlobStem s` is
`P.parent.glob(s ++ ".*")`, and `stem` is `pathlib`'s stem of a path. -/
structure SubsDir where
  entries : List Path
  parentEntries : List Path
  childEntries : Path → List Path
  parentGlobStem : String → List Path
  stem : Path → String

/-- `subs_from_paths` (main.py lines 41-55): keep the paths that are
files, construct as supported containers (`FileNotSupportedError` skips
the candidate, any other exception propagates), have exactly one track,
and contain subtitles. -/
def subs_from_paths (env : Env) : List Path → Except Err (List MKVFile)
  | [] => .ok []
  | p :: rest =>
    if ¬ env.isFile p then subs_from_paths env rest
    else
      match mkMKVFile env p none with
      | .error .fileNotSupported => subs_from_paths env rest
      | .error e => .error e
      | .ok sub =>
        if sub.tracks.length ≠ 1 then subs_from_paths env rest
        else if ¬ contains_subtitles sub then subs_from_paths env rest
        else
          match subs_from_paths env rest with
          | .error e => .error e
          | .ok subs => .ok (sub :: subs)

/-- In `videos_from_paths` (main.py line 65) the guard reads
`if not video.contains_video:` — *without* call parentheses.  The
attribute access yields a bound-method object, which is always truthy in
Python, so the guard never skips a candidate.  This definition embeds
that evaluated truthiness. -/
def contains_video_attr_truthy (_ : MKVFile) : Bool := true

/-- `videos_from_paths` (main.py lines 58-70): keep the paths that are
files and construct as supported containers (`FileNotSupportedError`
skips, other exceptions propagate).  The intended `contains_video` filter
is a no-op because the method is never called (see
`contains_video_attr_truthy`). -/
def videos_from_paths (env : Env) : List Path → Except Err (List MKVFile)
  | [] => .ok []
  | p :: rest =>
    if ¬ env.isFile p then videos_from_paths env rest
    else
      match mkMKVFile env p none with
      | .error .fileNotSupported => videos_from_paths env rest
      | .error e => .error e
      | .ok video =>
        if ¬ contains_video_attr_truthy video then videos_from_paths env rest
        else
          match videos_from_paths env rest with
          | .error e => .error e
          | .ok videos => .ok (video :: videos)

/-- The body of the per-subdirectory loop of `match_subs_to_file`
(main.py lines 89-99): subtitles from the subdirectory's contents
(`NoSubtitles` when none), videos from the parent restricted to the
subdirectory's stem (`NoVideo` when none, `AmbiguousVideo` when more than
one), else the single pair. -/
def match_one_subdir (env : Env) (d : SubsDir) (S : Path) :
    Except Err (MKVFile × List MKVFile) :=
  match subs_from_paths env (d.childEntries S) with
  | .error e => .error e
  | .ok subs =>
    if subs = [] then .error .noSubtitles
    else
      match videos_from_paths env (d.parentGlobStem (d.stem S)) with
      | .error e => .error e
      | .ok vids =>
        match vids with
        | [] => .error .noVideo
        | [v] => .ok (v, subs)
        | _ :: _ :: _ => .error .ambiguousVideo

/-- The `for sub_path in sub_paths` loop of the per-episode branch of
`match_subs_to_file` (main.py lines 89-99), with the generator modeled as
the full yielded sequence, cut short by the first raised exception. -/
def match_each (env : Env) (d : SubsDir) :
    List Path → Except Err (List (MKVFile × List MKVFile))
  | [] => .ok []
  | S :: rest =>
    match match_one_subdir env d S with
    | .error e => .error e
    | .ok pr =>
      match match_each env d rest with
      | .error e => .error e
      | .ok tail => .ok (pr :: tail)

/-- `match_subs_to_file` (main.py lines 73-101): empty directory fails;
all-files entries select the flat layout (subtitles from `P` — checked
first —, then videos from `P`'s parent, failing `NoVideo` when none and
`AmbiguousVideo` when more than one); all-directories entries select the
per-episode layout; a mix fails `UnsupportedLayout`. -/
def match_subs_to_file (env : Env) (d : SubsDir) :
    Except Err (List (MKVFile × List MKVFile)) :=
  if d.entries = [] then .error .emptyDirectory
  else if d.entries.all env.isFile then
    match subs_from_paths env d.entries with
    | .error e => .error e
    | .ok subs =>
      if subs = [] then .error .noSubtitles
      else
        match videos_from_paths env d.parentEntries with
        | .error e => .error e
        | .ok vids =>
          match vids with
          | [] => .error .noVideo
          | [v] => .ok [(v, subs)]
          | _ :: _ :: _ => .error .ambiguousVideo
  else if d.entries.all env.isDir then
    match_each env d d.entries
  else .error .unsupportedLayout

/-!  Concrete instances used by the closed theorems below: small
environments, probe results and model values on which the embedded
functions are evaluated. -/

/-- Build an `Env` whose path resolution is the identity (all paths taken
as already resolved). -/
def mkEnv (isFile : Path → Bool) (isDir : Path → Bool)
    (probe : Path → InfoJson) (iso : String → Bool) : Env :=
  { resolve := fun p => p, resolve_idem := fun _ => rfl,
    isFile := isFile, isDir := isDir, probe := probe, iso := iso }

/-- An empty per-track `properties` object. -/
def propsNone : TrackProperties :=
  { track_name := none, language := none, default_track := none, forced_track := none }

/-- A probe entry for a video track with id 0 and no properties. -/
def videoTrackEntry : ProbeTrack :=
  { id := 0, type := "video", codec := "AVC", properties := propsNone }

/-- A probe entry for an audio track with id 1 and no properties. -/
def audioTrackEntry : ProbeTrack :=
  { id := 1, type := "audio", codec := "AAC", properties := propsNone }

/-- A probe entry for a subtitle track with id 0 and no properties. -/
def subTrackEntry : ProbeTrack :=
  { id := 0, type := "subtitles", codec := "SubRip/SRT", properties := propsNone }

/-- Probe result: supported container with a single video track. -/
def ijVideo : InfoJson := { supported := true, tracks := [videoTrackEntry] }

/-- Probe result: supported container with a video and an audio track. -/
def ijVideoAudio : InfoJson :=
  { supported := true, tracks := [videoTrackEntry, audioTrackEntry] }

/-- Probe result: supported container with a single subtitle track. -/
def ijSub : InfoJson := { supported := true, tracks := [subTrackEntry] }

/-- Probe result: unsupported container. -/
def ijUnsupported : InfoJson := { supported := false, tracks := [] }

/-- The `MKVTrack` value produced by construction from a probe entry with
empty properties and default constructor arguments. -/
def builtTrack (p : Path) (i : Nat) (ty codec : String) : MKVTrack :=
  { file_path := p, track_id := i, track_codec := codec, track_type := ty,
    track_name := none, language := none, tags := none,
    default_track := false, forced_track := false, no_chapters := false,
    no_global_tags := false, no_track_tags := false, no_attachments := false }

/-- The `MKVFile` value produced by construction with no title. -/
def builtFile (p : Path) (tracks : List MKVTrack) : MKVFile :=
  { mkvmerge_path := default_mkv_path, file_path := p, title := none, tracks := tracks }

/-- Environment for the track-defaults evaluation: the probe reports one
subtitle track whose properties carry a name, a valid language and both
flags set. -/
def envC1 : Env := mkEnv (fun _ => true) (fun _ => false)
  (fun _ => { supported := true, tracks := [
    { id := 0, type := "subtitles", codec := "SubRip/SRT",
      properties := { track_name := some "Foo", language := some "eng",
                      default_track := some true, forced_track := some true } }] })
  (fun s => s == "eng")

/-- Environment where every path is a supported file with a single
subtitle track. -/
def envC2 : Env := mkEnv (fun _ => true) (fun _ => false) (fun _ => ijSub) (fun _ => false)

/-- Environment for the matcher evaluations: two supported video siblings
`Movie.mkv` / `Movie.mp4`, a supported subtitle file
`Subs/2_English.srt`, and an unsupported file `Subs/bad.txt`. -/
def envFlat : Env := mkEnv
  (fun p => p == "Movie.mkv" || p == "Movie.mp4" ||
            p == "Subs/bad.txt" || p == "Subs/2_English.srt")
  (fun _ => false)
  (fun p => if p == "Movie.mkv" then ijVideo
            else if p == "Movie.mp4" then ijVideo
            else if p == "Subs/2_English.srt" then ijSub
            else ijUnsupported)
  (fun s => s == "eng" || s == "dut")

/-- A `Subs` directory holding only the unsupported file (zero subtitle
candidates), with two video siblings in the parent. -/
def dNoSubs : SubsDir :=
  { entries := ["Subs/bad.txt"], parentEntries := ["Movie.mkv", "Movie.mp4"],
    childEntries := fun _ => [], parentGlobStem := fun _ => [],
    stem := fun _ => "" }

/-- A `Subs` directory holding one valid subtitle file, with two video
siblings in the parent. -/
def dOneSub : SubsDir :=
  { entries := ["Subs/2_English.srt"], parentEntries := ["Movie.mkv", "Movie.mp4"],
    childEntries := fun _ => [], parentGlobStem := fun _ => [],
    stem := fun _ => "" }

/-- Environment whose probe distinguishes path `a` (video) from any other
path (subtitles); used to observe the single-slot cache. -/
def envCache : Env := mkEnv (fun _ => true) (fun _ => false)
  (fun p => if p == "a" then ijVideo else ijSub) (fun _ => false)

/-- Environment for probe results with ids `0, 1` on every path. -/
def envTwoTracks : Env :=
  mkEnv (fun _ => true) (fun _ => false) (fun _ => ijVideoAudio) (fun _ => false)

/-- Environment whose probe reports a supported container whose single
track entry carries id 1 — not a valid positional index. -/
def envBadId : Env := mkEnv (fun _ => true) (fun _ => false)
  (fun _ => { supported := true, tracks := [
    { id := 1, type := "video", codec := "AVC", properties := propsNone }] })
  (fun _ => false)

/-- A two-track model: its own video track plus an appended foreign
subtitle track. -/
def fileCmd : MKVFile :=
  builtFile "video.mkv"
    [builtTrack "video.mkv" 0 "video" "AVC",
     builtTrack "sub.srt" 0 "subtitles" "SubRip/SRT"]

/-- The argument list `MKVFile.command` produces for `fileCmd` at output
`out.mkv`. -/
def cmdListW : List String :=
  ["resources/mkvmerge.exe", "-o", "out.mkv",
   "--default-track", "0:0", "--forced-track", "0:0", "-d", "0", "-A", "-S", "video.mkv",
   "--default-track", "0:0", "--forced-track", "0:0", "-D", "-A", "-s", "0", "sub.srt"]

/-- The container model `ContainerModel("Subs/2_English.srt")` built in
`envFlat`. -/
def subFileFlat : MKVFile :=
  builtFile "Subs/2_English.srt"
    [builtTrack "Subs/2_English.srt" 0 "subtitles" "SubRip/SRT"]

/-- The container model `ContainerModel("Movie.mkv")` built in `envFlat`. -/
def vidMkv : MKVFile := builtFile "Movie.mkv" [builtTrack "Movie.mkv" 0 "video" "AVC"]

/-- The container model `ContainerModel("Movie.mp4")` built in `envFlat`. -/
def vidMp4 : MKVFile := builtFile "Movie.mp4" [builtTrack "Movie.mp4" 0 "video" "AVC"]

/-- The result of `add_track("y.mkv")` on an empty model in
`envTwoTracks`. -/
def fileAfterAdd : MKVFile :=
  builtFile "x.mkv" [builtTrack "y.mkv" 0 "video" "AVC"]

/-- The subtitle track of `fileCmd`. -/
def tSub : MKVTrack := builtTrack "sub.srt" 0 "subtitles" "SubRip/SRT"

/-- A concrete track used as an explicitly passed `MKVTrack`. -/
def tExplicit : MKVTrack := builtTrack "v.mkv" 3 "audio" "AAC"

/-!  Helper lemmas shared by several claim theorems. -/

/-- A successful `language` assignment stores exactly the assigned
value. -/
theorem language_setter_ok (env : Env) (l v : Option String)
    (h : language_setter env l = .ok v) : v = l := by
  cases l with
  | none =>
    simp only [language_setter] at h
    injection h with h
    exact h.symm
  | some s =>
    simp only [language_setter] at h
    split at h
    · injection h with h
      exact h.symm
    · exact Except.noConfusion h

/-- The fields of a successfully constructed `MKVTrack` in terms of the
constructor arguments: the four "default" attributes end up holding the
constructor arguments (the probe-derived assignments are overwritten). -/
theorem mkMKVTrack_ok (env : Env) (fp : Path) (i : Nat) (n lg : Option String)
    (d fo : Bool) (t : MKVTrack)
    (h : mkMKVTrack env fp i n lg d fo = .ok t) :
    t.track_id = i ∧ t.track_name = n ∧ t.language = lg ∧
    t.default_track = d ∧ t.forced_track = fo ∧
    t.file_path = env.resolve fp ∧ t.tags = none := by
  simp only [mkMKVTrack] at h
  split at h
  · exact Except.noConfusion h
  split at h
  · exact Except.noConfusion h
  split at h
  case isTrue hlt =>
    split at h
    · exact Except.noConfusion h
    split at h
    · exact Except.noConfusion h
    split at h
    · exact Except.noConfusion h
    case h_2 lang hlang =>
      injection h with h
      subst h
      refine ⟨rfl, rfl, ?_, rfl, rfl, rfl, rfl⟩
      exact language_setter_ok env lg lang hlang
  · exact Except.noConfusion h

/-- A successful `mk_tracks` run produces one track per probe entry, in
order, each carrying that entry's id. -/
theorem mk_tracks_ok (env : Env) (fp : Path) (l : List ProbeTrack) :
    ∀ ts : List MKVTrack, mk_tracks env fp l = .ok ts →
      ts.map (fun t => t.track_id) = l.map (fun tr => tr.id) := by
  induction l with
  | nil =>
    intro ts h
    simp only [mk_tracks] at h
    injection h with h
    subst h
    rfl
  | cons tr rest ih =>
    intro ts h
    simp only [mk_tracks] at h
    split at h
    · exact Except.noConfusion h
    case h_2 t ht =>
      split at h
      · exact Except.noConfusion h
      case h_2 ts2 hts2 =>
        injection h with h
        subst h
        simp only [List.map_cons]
        exact congrArg₂ (· :: ·) (mkMKVTrack_ok env fp tr.id none none false false t ht).1
          (ih ts2 hts2)

/-!  Claim theorems. -/

/-- C1 (code bug): the per-track defaults are supposed to be copied from
the probe's per-track properties, but `MKVTrack.__init__` unconditionally
overwrites them with its own arguments right after
`set_defaults_from_info_json`; a track built from a probe entry carrying
`track_name="Foo"`, `language="eng"`, `default_track=true`,
`forced_track=true` comes out with all four at the constructor defaults
(unset / false). -/
theorem track_probe_defaults_are_overwritten :
    ((envC1.probe "f").tracks.map fun tr => tr.properties) =
      [{ track_name := some "Foo", language := some "eng",
         default_track := some true, forced_track := some true }] ∧
    mkMKVTrack envC1 "f" 0 none none false false =
      .ok { file_path := "f", track_id := 0, track_codec := "SubRip/SRT",
            track_type := "subtitles", track_name := none, language := none,
            tags := none, default_track := false, forced_track := false,
            no_chapters := false, no_global_tags := false,
            no_track_tags := false, no_attachments := false } :=
  ⟨rfl, rfl⟩

/-- C2 (code bug): because `videos_from_paths` never *calls*
`contains_video` (main.py line 65 is missing the call parentheses), a
supported file containing only a subtitle track is kept in the
video-candidate set. -/
theorem videoless_file_is_video_candidate :
    videos_from_paths envC2 ["sub.srt"] =
      .ok [builtFile "sub.srt" [builtTrack "sub.srt" 0 "subtitles" "SubRip/SRT"]] ∧
    contains_video
      (builtFile "sub.srt" [builtTrack "sub.srt" 0 "subtitles" "SubRip/SRT"]) = false :=
  ⟨rfl, rfl⟩

/-- C4 (amended): whenever `ContainerModel` construction *succeeds*, the
tracks list has one entry per probe entry, in probe order, the i-th
carrying the i-th probe entry's id.  (Construction itself can fail even
for a supported container — see
`container_construction_can_fail_on_probe_ids`.) -/
theorem container_tracks_follow_probe (env : Env) (p : Path) (ti : Option String)
    (f : MKVFile) (h : mkMKVFile env p ti = .ok f) :
    f.tracks.length = (env.probe (env.resolve p)).tracks.length ∧
    f.tracks.map (fun t => t.track_id) =
      (env.probe (env.resolve p)).tracks.map (fun tr => tr.id) := by
  simp only [mkMKVFile] at h
  rw [env.resolve_idem] at h
  split at h
  · exact Except.noConfusion h
  split at h
  · exact Except.noConfusion h
  split at h
  · exact Except.noConfusion h
  case h_2 tracks htracks =>
    injection h with h
    subst h
    have hmap := mk_tracks_ok env (env.resolve p) _ tracks htracks
    refine ⟨?_, hmap⟩
    have := congrArg List.length hmap
    simpa using this

/-- C4 counterexample: a path whose probe reports a *supported* container
with one track entry of id 1 makes construction raise `IndexError`
instead of yielding a one-track list. -/
theorem container_construction_can_fail_on_probe_ids :
    (envBadId.probe "g").supported = true ∧
    (envBadId.probe "g").tracks.length = 1 ∧
    mkMKVFile envBadId "g" none = .error .indexError :=
  ⟨rfl, rfl, rfl⟩

/-- C4 witness: a two-track supported probe yields a two-track model with
ids in probe order. -/
theorem container_tracks_follow_probe_witness :
    (builtFile "v.mkv"
        [builtTrack "v.mkv" 0 "video" "AVC",
         builtTrack "v.mkv" 1 "audio" "AAC"]).tracks.length =
      (envTwoTracks.probe (envTwoTracks.resolve "v.mkv")).tracks.length ∧
    (builtFile "v.mkv"
        [builtTrack "v.mkv" 0 "video" "AVC",
         builtTrack "v.mkv" 1 "audio" "AAC"]).tracks.map (fun t => t.track_id) =
      (envTwoTracks.probe (envTwoTracks.resolve "v.mkv")).tracks.map (fun tr => tr.id) :=
  container_tracks_follow_probe envTwoTracks "v.mkv" none
    (builtFile "v.mkv"
      [builtTrack "v.mkv" 0 "video" "AVC",
       builtTrack "v.mkv" 1 "audio" "AAC"]) rfl

/-- C5: assigning an invalid ISO 639-2 code to `language` fails with
`ValueError` (the setter validates before storing, so the stored value is
untouched), while a valid code or the unset value is stored. -/
theorem language_invalid_rejected (env : Env) (t : MKVTrack) (s : String)
    (hbad : env.iso s = false) :
    set_language env t (some s) = .error .valueError ∧
    (∀ s2, env.iso s2 = true →
      set_language env t (some s2) = .ok { t with language := some s2 }) ∧
    set_language env t none = .ok { t with language := none } := by
  refine ⟨?_, ?_, rfl⟩
  · simp [set_language, language_setter, hbad]
  · intro s2 h2
    simp [set_language, language_setter, h2]

/-- C5 witness: with ISO 639-2 membership `{eng}`, assigning `"zz"` fails
and assigning `"eng"` or unset succeeds, on a concrete track. -/
theorem language_invalid_rejected_witness :
    set_language envC1 tSub (some "zz") = .error .valueError ∧
    (∀ s2, envC1.iso s2 = true →
      set_language envC1 tSub (some s2) = .ok { tSub with language := some s2 }) ∧
    set_language envC1 tSub none = .ok { tSub with language := none } :=
  language_invalid_rejected envC1 tSub "zz" rfl

/-- C9: `add_track` with a path appends the track produced by
`MKVTrack(path)` — whose `track_id` is always the default 0 — regardless
of the file's track count, while `add_track` with an explicit `MKVTrack`
appends that very track. -/
theorem add_track_path_appends_first_track (env : Env) (f : MKVFile) (p : Path)
    (f2 : MKVFile) (t2 : MKVTrack) (h : add_track_path env f p = .ok f2) :
    (∃ t, f2.tracks = f.tracks ++ [t] ∧ t.track_id = 0) ∧
    (add_track_track f t2).tracks = f.tracks ++ [t2] := by
  refine ⟨?_, rfl⟩
  simp only [add_track_path] at h
  split at h
  · exact Except.noConfusion h
  case h_2 t ht =>
    injection h with h
    subst h
    exact ⟨t, rfl, (mkMKVTrack_ok env p 0 none none false false t ht).1⟩

/-- If the subtitles of subdirectory `S` are found but more than one
video candidate matches its stem, the per-subdirectory step fails with
`AmbiguousVideo`. -/
theorem match_one_subdir_ambiguous (env : Env) (d : SubsDir) (S : Path)
    (subs : List MKVFile) (v1 v2 : MKVFile) (vrest : List MKVFile)
    (hsubs : subs_from_paths env (d.childEntries S) = .ok subs) (hsne : subs ≠ [])
    (hvids : videos_from_paths env (d.parentGlobStem (d.stem S)) =
      .ok (v1 :: v2 :: vrest)) :
    match_one_subdir env d S = .error .ambiguousVideo := by
  simp only [match_one_subdir, hsubs, if_neg hsne, hvids]

/-- The per-episode loop propagates the first failing subdirectory's
error when all earlier subdirectories succeed. -/
theorem match_each_first_error (env : Env) (d : SubsDir) (S : Path) (e : Err)
    (hS : match_one_subdir env d S = .error e) :
    ∀ pre post, (∀ S2, S2 ∈ pre → ∃ pr, match_one_subdir env d S2 = .ok pr) →
      match_each env d (pre ++ S :: post) = .error e := by
  intro pre
  induction pre with
  | nil =>
    intro post _
    simp only [List.nil_append, match_each, hS]
  | cons a rest ih =>
    intro post hok
    obtain ⟨pr, hpr⟩ := hok a (List.mem_cons_self a rest)
    simp only [List.cons_append, match_each, hpr, List.append_eq]
    rw [ih post (fun S2 hS2 => hok S2 (List.mem_cons_of_mem a hS2))]

/-- C3 (amended): whenever the video search scope of a subtitle-bearing
directory holds two or more candidates *and at least one subtitle file
was found* (for the per-episode layout: in the failing subdirectory,
with every earlier subdirectory matching successfully), the matcher
fails with `AmbiguousVideo`.  With zero subtitle files found it fails
with `NoSubtitles` before the video search
(see `zero_subtitles_preempts_ambiguity`). -/
theorem ambiguous_video_requires_subtitles_found (env : Env) (d : SubsDir) :
    (∀ subs vids, d.entries ≠ [] → d.entries.all env.isFile = true →
      subs_from_paths env d.entries = .ok subs → subs ≠ [] →
      videos_from_paths env d.parentEntries = .ok vids → 1 < vids.length →
      match_subs_to_file env d = .error .ambiguousVideo) ∧
    (∀ pre S post subs vids, d.entries = pre ++ S :: post →
      d.entries.all env.isFile = false → d.entries.all env.isDir = true →
      (∀ S2, S2 ∈ pre → ∃ pr, match_one_subdir env d S2 = .ok pr) →
      subs_from_paths env (d.childEntries S) = .ok subs → subs ≠ [] →
      videos_from_paths env (d.parentGlobStem (d.stem S)) = .ok vids →
      1 < vids.length →
      match_subs_to_file env d = .error .ambiguousVideo) := by
  constructor
  · intro subs vids hne hfiles hsubs hsne hvids hlen
    rcases vids with - | ⟨v1, vids2⟩
    · simp at hlen
    rcases vids2 with - | ⟨v2, vrest⟩
    · simp at hlen
    simp only [match_subs_to_file, if_neg hne, if_pos hfiles, hsubs, if_neg hsne, hvids]
  · intro pre S post subs vids hdec hfiles hdirs hok hsubs hsne hvids hlen
    rcases vids with - | ⟨v1, vids2⟩
    · simp at hlen
    rcases vids2 with - | ⟨v2, vrest⟩
    · simp at hlen
    have hne : d.entries ≠ [] := by simp [hdec]
    have hnotfiles : ¬ d.entries.all env.isFile = true := by simp [hfiles]
    have hamb := match_one_subdir_ambiguous env d S subs v1 v2 vrest hsubs hsne hvids
    simp only [match_subs_to_file, if_neg hne, if_neg hnotfiles, if_pos hdirs]
    rw [hdec]
    exact match_each_first_error env d S _ hamb pre post hok

/-- C3 witness: a flat `Subs` directory with one valid subtitle file and
two supported video siblings fails with `AmbiguousVideo`. -/
theorem ambiguous_video_requires_subtitles_found_witness :
    match_subs_to_file envFlat dOneSub = .error .ambiguousVideo :=
  (ambiguous_video_requires_subtitles_found envFlat dOneSub).1
    [subFileFlat] [vidMkv, vidMp4] (by decide) rfl rfl (by decide) rfl (by decide)

/-- C3 counterexample: the same two-candidate video scope with *zero*
subtitle files found fails with `NoSubtitles`, not `AmbiguousVideo` —
the subtitle check precedes the video search. -/
theorem zero_subtitles_preempts_ambiguity :
    videos_from_paths envFlat dNoSubs.parentEntries = .ok [vidMkv, vidMp4] ∧
    match_subs_to_file envFlat dNoSubs = .error .noSubtitles ∧
    Err.noSubtitles ≠ Err.ambiguousVideo :=
  ⟨rfl, rfl, by decide⟩

/-- A successful `info_json` call leaves the single-slot cache holding
exactly the requested resolved path and the returned result. -/
theorem info_json_ok_state (env : Env) (st st2 : ProbeCache) (p : Path)
    (j : InfoJson) (b : Bool) (h : info_json env st p = .ok (st2, j, b)) :
    st2.info_json_hash = some (env.resolve p) ∧ st2.info_json_cache = some j := by
  obtain ⟨hash, cache⟩ := st
  cases cache with
  | none =>
    simp only [info_json, info_json_miss] at h
    split at h
    · exact Except.noConfusion h
    · injection h with h
      injection h with h1 h2
      subst h1
      injection h2 with h2a h2b
      subst h2a
      exact ⟨rfl, rfl⟩
  | some jc =>
    cases hash with
    | none =>
      simp only [info_json, info_json_miss] at h
      split at h
      · exact Except.noConfusion h
      · injection h with h
        injection h with h1 h2
        subst h1
        injection h2 with h2a h2b
        subst h2a
        exact ⟨rfl, rfl⟩
    | some hh =>
      simp only [info_json, info_json_miss] at h
      split at h
      case isTrue heq =>
        injection h with h
        injection h with h1 h2
        subst h1
        injection h2 with h2a h2b
        subst h2a
        exact ⟨by rw [heq], rfl⟩
      case isFalse =>
        split at h
        · exact Except.noConfusion h
        · injection h with h
          injection h with h1 h2
          subst h1
          injection h2 with h2a h2b
          subst h2a
          exact ⟨rfl, rfl⟩

/-- C6: the probe cache is a single slot keyed by resolved path — after a
successful probe of `p`, probing `p` again returns the identical result
with no subprocess invocation and an unchanged slot; probing a different
path `q` invokes the subprocess and evicts the slot, so probing `p` once
more invokes the subprocess again. -/
theorem info_json_single_slot_cache (env : Env) (st st1 st2 : ProbeCache)
    (p q : Path) (j1 j2 : InfoJson) (b1 b2 : Bool)
    (hne : env.resolve p ≠ env.resolve q)
    (hp : env.isFile (env.resolve p) = true)
    (h1 : info_json env st p = .ok (st1, j1, b1))
    (h2 : info_json env st1 q = .ok (st2, j2, b2)) :
    info_json env st1 p = .ok (st1, j1, false) ∧
    b2 = true ∧
    info_json env st2 p =
      .ok (⟨some (env.resolve p), some (env.probe (env.resolve p))⟩,
        env.probe (env.resolve p), true) := by
  obtain ⟨hh1, hc1⟩ := info_json_ok_state env st st1 p j1 b1 h1
  obtain ⟨hh2, hc2⟩ := info_json_ok_state env st1 st2 q j2 b2 h2
  refine ⟨?_, ?_, ?_⟩
  · simp [info_json, hc1, hh1]
  · have h2' : info_json env st1 q = info_json_miss env (env.resolve q) := by
      simp only [info_json, hc1, hh1, if_neg (Ne.symm hne)]
    rw [h2'] at h2
    simp only [info_json_miss] at h2
    split at h2
    · exact Except.noConfusion h2
    · injection h2 with h2
      injection h2 with h2a h2b
      injection h2b with h2c h2d
      exact h2d.symm
  · simp only [info_json, hc2, hh2, if_neg hne, info_json_miss,
      if_neg (not_not_intro hp)]

/-- C6 witness: concrete cache-hit, eviction and re-probe sequence on
paths `a` and `b`. -/
theorem info_json_single_slot_cache_witness :
    info_json envCache ⟨some "a", some ijVideo⟩ "a" =
      .ok (⟨some "a", some ijVideo⟩, ijVideo, false) ∧
    true = true ∧
    info_json envCache ⟨some "b", some ijSub⟩ "a" =
      .ok (⟨some "a", some ijVideo⟩, ijVideo, true) :=
  info_json_single_slot_cache envCache ⟨none, none⟩ ⟨some "a", some ijVideo⟩
    ⟨some "b", some ijSub⟩ "a" "b" ijVideo ijSub true true
    (by decide) rfl rfl rfl

/-- In a successfully built command, each track of the model contributes
its whole option group as a contiguous segment. -/
theorem command_track_args_infix (env : Env) (f f2 : MKVFile) (out : Path)
    (l : List String) (h : command f env out = .ok (f2, l)) (t : MKVTrack)
    (ht : t ∈ f.tracks) :
    ∃ pre post, l = pre ++ track_args t ++ post := by
  simp only [command] at h
  split at h
  · exact Except.noConfusion h
  · injection h with h
    injection h with hf hl
    obtain ⟨s1, s2, hsplit⟩ := List.append_of_mem ht
    refine ⟨[(f.mkvmerge_path : String), "-o", (env.resolve out : String)] ++
      (match f.title with | none => [] | some ti => ["--title", ti]) ++
      (s1.map track_args).flatten, (s2.map track_args).flatten, ?_⟩
    rw [← hl, hsplit]
    simp [List.map_append, List.flatten_append, List.append_assoc]

/-- C7: the built command carries, for every track, its stream-category
selection block: for each of video/audio/subtitles, the track id is
explicitly included (`-d`/`-a`/`-s <id>`) when the track's type matches
the category and the whole category is explicitly excluded
(`-D`/`-A`/`-S`) otherwise — so a file contributing one subtitle track
has its video and audio categories excluded. -/
theorem command_stream_category_selection (env : Env) (f f2 : MKVFile) (out : Path)
    (l : List String) (h : command f env out = .ok (f2, l)) (t : MKVTrack)
    (ht : t ∈ f.tracks) :
    (∃ pre post, l = pre ++ track_stream_args t ++ post) ∧
    (t.track_type = "video" →
      track_stream_args t = ["-d", toString t.track_id, "-A", "-S"]) ∧
    (t.track_type = "audio" →
      track_stream_args t = ["-D", "-a", toString t.track_id, "-S"]) ∧
    (t.track_type = "subtitles" →
      track_stream_args t = ["-D", "-A", "-s", toString t.track_id]) ∧
    (t.track_type ≠ "video" → t.track_type ≠ "audio" →
      t.track_type ≠ "subtitles" → track_stream_args t = ["-D", "-A", "-S"]) := by
  refine ⟨?_, ?_, ?_, ?_, ?_⟩
  · obtain ⟨pre, post, hdecomp⟩ := command_track_args_infix env f f2 out l h t ht
    refine ⟨pre ++ track_override_args t ++ track_flag_args t,
      track_exclusion_args t ++ [(t.file_path : String)] ++ post, ?_⟩
    rw [hdecomp]
    simp [track_args, List.append_assoc]
  · intro hty
    simp only [track_stream_args, hty]
    rw [if_neg (by decide), if_pos (by decide), if_pos (by decide)]
    rfl
  · intro hty
    simp only [track_stream_args, hty]
    rw [if_pos (by decide), if_neg (by decide), if_pos (by decide)]
    rfl
  · intro hty
    simp only [track_stream_args, hty]
    rw [if_pos (by decide), if_pos (by decide), if_neg (by decide)]
    rfl
  · intro h1 h2 h3
    simp only [track_stream_args]
    rw [if_pos h1, if_pos h2, if_pos h3]
    rfl

/-- C7 witness: the subtitle track of a concrete two-track command has
its video and audio categories excluded and its id selected for
subtitles. -/
theorem command_stream_category_selection_witness :
    (∃ pre post, cmdListW = pre ++ track_stream_args tSub ++ post) ∧
    (tSub.track_type = "video" →
      track_stream_args tSub = ["-d", toString tSub.track_id, "-A", "-S"]) ∧
    (tSub.track_type = "audio" →
      track_stream_args tSub = ["-D", "-a", toString tSub.track_id, "-S"]) ∧
    (tSub.track_type = "subtitles" →
      track_stream_args tSub = ["-D", "-A", "-s", toString tSub.track_id]) ∧
    (tSub.track_type ≠ "video" → tSub.track_type ≠ "audio" →
      tSub.track_type ≠ "subtitles" → track_stream_args tSub = ["-D", "-A", "-S"]) :=
  command_stream_category_selection envCache fileCmd fileCmd "out.mkv" cmdListW
    rfl tSub (by decide)

/-- C8: the built command contains, for every track, the
`--default-track <id>:1|0` and `--forced-track <id>:1|0` options, with
the digit given by the flag — emitted even when both flags are false and
no other override is set. -/
theorem command_always_emits_flag_options (env : Env) (f f2 : MKVFile) (out : Path)
    (l : List String) (h : command f env out = .ok (f2, l)) (t : MKVTrack)
    (ht : t ∈ f.tracks) :
    ∃ pre post, l = pre ++
      ["--default-track",
       toString t.track_id ++ ":" ++ (if t.default_track then "1" else "0"),
       "--forced-track",
       toString t.track_id ++ ":" ++ (if t.forced_track then "1" else "0")] ++ post := by
  obtain ⟨pre, post, hdecomp⟩ := command_track_args_infix env f f2 out l h t ht
  refine ⟨pre ++ track_override_args t,
    track_stream_args t ++ track_exclusion_args t ++ [(t.file_path : String)] ++ post, ?_⟩
  rw [hdecomp]
  simp [track_args, track_flag_args, List.append_assoc]

/-- C8 witness: the subtitle track of a concrete command, with both flags
false and no overrides, still gets `--default-track 0:0` and
`--forced-track 0:0`. -/
theorem command_always_emits_flag_options_witness :
    ∃ pre post, cmdListW = pre ++
      ["--default-track",
       toString tSub.track_id ++ ":" ++ (if tSub.default_track then "1" else "0"),
       "--forced-track",
       toString tSub.track_id ++ ":" ++ (if tSub.forced_track then "1" else "0")] ++ post :=
  command_always_emits_flag_options envCache fileCmd fileCmd "out.mkv" cmdListW
    rfl tSub (by decide)

/-- C10: with an output path carrying the expected `.mkv` suffix,
building the command succeeds and does not mutate the model — the
returned state is the input model itself, so the tracks list, the title
and every track's overrides, flags and exclusion flags are unchanged. -/
theorem command_does_not_mutate (env : Env) (f : MKVFile) (out : Path)
    (h : pathSuffix (env.resolve out) = ".mkv") :
    ∃ l, command f env out = .ok (f, l) ∧
      ∀ f2 l2, command f env out = .ok (f2, l2) →
        f2.tracks = f.tracks ∧ f2.title = f.title ∧
        f2.file_path = f.file_path ∧ f2.mkvmerge_path = f.mkvmerge_path := by
  have hcond : ¬ pathSuffix (env.resolve out) ≠ ".mkv" := fun hc => hc h
  have hcmd : command f env out =
      .ok (f, [(f.mkvmerge_path : String), "-o", (env.resolve out : String)] ++
        (match f.title with
         | none => []
         | some ti => ["--title", ti]) ++
        (f.tracks.map track_args).flatten) := by
    simp only [command, if_neg hcond]
  refine ⟨_, hcmd, ?_⟩
  intro f2 l2 h2
  rw [hcmd] at h2
  injection h2 with h2
  injection h2 with hf hl
  subst hf
  exact ⟨rfl, rfl, rfl, rfl⟩

/-- C10 witness: building the command for a concrete two-track model at
output `out.mkv` returns the argument list with the model unchanged. -/
theorem command_does_not_mutate_witness :
    ∃ l, command fileCmd envCache "out.mkv" = .ok (fileCmd, l) ∧
      ∀ f2 l2, command fileCmd envCache "out.mkv" = .ok (f2, l2) →
        f2.tracks = fileCmd.tracks ∧ f2.title = fileCmd.title ∧
        f2.file_path = fileCmd.file_path ∧ f2.mkvmerge_path = fileCmd.mkvmerge_path :=
  command_does_not_mutate envCache fileCmd "out.mkv" rfl

/-- C9 witness: adding path `y.mkv` (a two-track file) to an empty model
appends the track with id 0; adding an explicit track with id 3 appends
it unchanged. -/
theorem add_track_path_appends_first_track_witness :
    (∃ t, fileAfterAdd.tracks = (builtFile "x.mkv" []).tracks ++ [t] ∧ t.track_id = 0) ∧
    (add_track_track (builtFile "x.mkv" []) tExplicit).tracks =
      (builtFile "x.mkv" []).tracks ++ [tExplicit] :=
  add_track_path_appends_first_track envTwoTracks (builtFile "x.mkv" []) "y.mkv"
    fileAfterAdd tExplicit rfl

end MkvCombine
